import Mathlib

/-!
Shallow embedding of the blood-sugar statistics tracker (src/index.ts).

JavaScript numbers are modelled as rationals (ℚ); the exact equalities the
spec states (6.65, 3.9, ...) are real-arithmetic facts, and every operation
used by the module is +, *, -, / and comparisons.  `Date`-derived strings
(`calculateDateOffset`) are clock-dependent, so the initial state is
parametrised by an opaque `dateOffset : Nat → String`.  The record mapping
`statsByPeriod` is embedded as an association list; the JS object spread
`{ ...obj, [k]: v }` on an object whose keys are unique replaces the entry
for `k` in place, which `updatePeriod` mirrors.  A JS `TypeError` (reading a
field of `undefined`) is modelled as `Option.none`; the thrown
"Invalid period" error as `Except.error`.
-/

/-- `BloodSugarRange` from src/index.ts: classification band thresholds. -/
structure BloodSugarRange where
  veryHigh : ℚ
  high : ℚ × ℚ
  normal : ℚ × ℚ
  low : ℚ
deriving DecidableEq, Repr

/-- `BloodSugarCounters` from src/index.ts: one count per band. -/
structure BloodSugarCounters where
  veryHigh : ℕ
  high : ℕ
  normal : ℕ
  low : ℕ
deriving DecidableEq, Repr

/-- The eight keys of `BloodSugarTimeStats` (`keyof BloodSugarTimeStats`). -/
inductive TimeCategory where
  | beforeBreakfast
  | afterBreakfast
  | beforeLunch
  | afterLunch
  | beforeDinner
  | afterDinner
  | beforeSleep
  | random
deriving DecidableEq, Repr

/-- `BloodSugarTimeStats` from src/index.ts: every field optional. -/
structure BloodSugarTimeStats where
  beforeBreakfast : Option ℚ := none
  afterBreakfast : Option ℚ := none
  beforeLunch : Option ℚ := none
  afterLunch : Option ℚ := none
  beforeDinner : Option ℚ := none
  afterDinner : Option ℚ := none
  beforeSleep : Option ℚ := none
  random : Option ℚ := none
deriving DecidableEq, Repr

/-- Read `period.timeStats[timeCategory]`. -/
def BloodSugarTimeStats.get (ts : BloodSugarTimeStats) : TimeCategory → Option ℚ
  | .beforeBreakfast => ts.beforeBreakfast
  | .afterBreakfast => ts.afterBreakfast
  | .beforeLunch => ts.beforeLunch
  | .afterLunch => ts.afterLunch
  | .beforeDinner => ts.beforeDinner
  | .afterDinner => ts.afterDinner
  | .beforeSleep => ts.beforeSleep
  | .random => ts.random

/-- Write `period.timeStats[timeCategory] = v`. -/
def BloodSugarTimeStats.set (ts : BloodSugarTimeStats) : TimeCategory → ℚ → BloodSugarTimeStats
  | .beforeBreakfast, v => { ts with beforeBreakfast := some v }
  | .afterBreakfast, v => { ts with afterBreakfast := some v }
  | .beforeLunch, v => { ts with beforeLunch := some v }
  | .afterLunch, v => { ts with afterLunch := some v }
  | .beforeDinner, v => { ts with beforeDinner := some v }
  | .afterDinner, v => { ts with afterDinner := some v }
  | .beforeSleep, v => { ts with beforeSleep := some v }
  | .random, v => { ts with random := some v }

/-- `Object.values(period.timeStats).reduce((total, value) => total + (value ?? 0), 0)`:
the sum of the stored time-category values, an absent key contributing nothing
(equivalently 0). -/
def BloodSugarTimeStats.sumValues (ts : BloodSugarTimeStats) : ℚ :=
  ts.beforeBreakfast.getD 0 + ts.afterBreakfast.getD 0 + ts.beforeLunch.getD 0 +
    ts.afterLunch.getD 0 + ts.beforeDinner.getD 0 + ts.afterDinner.getD 0 +
    ts.beforeSleep.getD 0 + ts.random.getD 0

/-- `BloodSugarPeriodStats` from src/index.ts. -/
structure BloodSugarPeriodStats where
  startDate : String
  endDate : String
  average : Option ℚ
  highest : Option ℚ
  lowest : Option ℚ
  counters : BloodSugarCounters
  timeStats : BloodSugarTimeStats
deriving DecidableEq, Repr

/-- `BloodSugarAppState` from src/index.ts; the `Record<string, ...>` is an
association list with unique keys. -/
structure BloodSugarAppState where
  range : BloodSugarRange
  statsByPeriod : List (String × BloodSugarPeriodStats)
  currentPeriod : String
deriving DecidableEq, Repr

/-- A fresh window bucket as built inside `initialState`. -/
def freshPeriod (startDate endDate : String) : BloodSugarPeriodStats where
  startDate := startDate
  endDate := endDate
  average := none
  highest := none
  lowest := none
  counters := { veryHigh := 0, high := 0, normal := 0, low := 0 }
  timeStats := {}

/-- `initialState` from src/index.ts, with `calculateDateOffset` abstracted as
`dateOffset` since it reads the wall clock. -/
def initialState (dateOffset : Nat → String) : BloodSugarAppState where
  range := { veryHigh := 9, high := (6, 9), normal := (4, 6), low := 4 }
  statsByPeriod :=
    [("7", freshPeriod (dateOffset 7) (dateOffset 0)),
     ("14", freshPeriod (dateOffset 14) (dateOffset 0)),
     ("30", freshPeriod (dateOffset 30) (dateOffset 0)),
     ("90", freshPeriod (dateOffset 90) (dateOffset 0))]
  currentPeriod := "7"

/-- The counter-update block of `addMeasurement` (lines 128-136): the first
matching band's counter is incremented, a value matching no band leaves the
counters unchanged. -/
def classifyIncrement (range : BloodSugarRange) (level : ℚ)
    (c : BloodSugarCounters) : BloodSugarCounters :=
  if level > range.veryHigh then { c with veryHigh := c.veryHigh + 1 }
  else if range.high.1 ≤ level ∧ level ≤ range.high.2 then { c with high := c.high + 1 }
  else if range.normal.1 ≤ level ∧ level ≤ range.normal.2 then { c with normal := c.normal + 1 }
  else if level < range.low then { c with low := c.low + 1 }
  else c

/-- `totalMeasurements` (line 147): the sum of the four band counters. -/
def countersTotal (c : BloodSugarCounters) : ℕ :=
  c.veryHigh + c.high + c.normal + c.low

/-- The body of `addMeasurement` acting on the selected window's record
(lines 127-159): counters, min/max, average and time-category update. -/
def updatedPeriod (range : BloodSugarRange) (period : BloodSugarPeriodStats)
    (level : ℚ) (timeCategory : Option TimeCategory) : BloodSugarPeriodStats :=
  let counters := classifyIncrement range level period.counters
  let highest : ℚ :=
    match period.highest with
    | none => level
    | some h => if level > h then level else h
  let lowest : ℚ :=
    match period.lowest with
    | none => level
    | some l => if level < l then level else l
  let totalMeasurements : ℕ := countersTotal counters
  let average : ℚ :=
    (period.average.getD 0 * ((totalMeasurements : ℚ) - 1) + level) / (totalMeasurements : ℚ)
  let timeStats :=
    match timeCategory with
    | none => period.timeStats
    | some c =>
      let currentStat := (period.timeStats.get c).getD 0
      let totalForCategory := period.timeStats.sumValues
      period.timeStats.set c
        ((currentStat * (totalForCategory - 1) + level) / (totalMeasurements : ℚ))
  { period with
    average := some average
    highest := some highest
    lowest := some lowest
    counters := counters
    timeStats := timeStats }

/-- Own-property access `obj[key]` on the `Record<string, BloodSugarPeriodStats>`:
the stats record stored under `key`, `none` when `key` is not an own key.
JS property access also consults the prototype chain, but an inherited value
(`obj["toString"]`, ...) is a function or plain object, never a stats record:
wherever the code goes on to read stats fields from the result
(`addMeasurement` line 147, which throws a `TypeError` on any non-own key),
`none` is the faithful model.  The one place where the inherited values
matter — the truthiness test in `switchPeriod` — uses `isTruthyProperty`
below instead. -/
def lookupPeriod (l : List (String × BloodSugarPeriodStats)) (k : String) :
    Option BloodSugarPeriodStats :=
  match l with
  | [] => none
  | (k', v) :: t => if k' = k then some v else lookupPeriod t k

/-- The property names a plain object literal inherits from
`Object.prototype`; accessing any of them on `statsByPeriod` yields a
function (or, for `__proto__`, an object), which is truthy. -/
def protoProps : List String :=
  ["constructor", "hasOwnProperty", "isPrototypeOf", "propertyIsEnumerable",
   "toLocaleString", "toString", "valueOf", "__proto__",
   "__defineGetter__", "__defineSetter__", "__lookupGetter__", "__lookupSetter__"]

/-- Truthiness of `state.statsByPeriod[period]` as JS evaluates it: an own
key yields its stats object (truthy), an `Object.prototype` property name
yields an inherited truthy value, anything else yields `undefined` (falsy). -/
def isTruthyProperty (l : List (String × BloodSugarPeriodStats)) (k : String) : Bool :=
  (lookupPeriod l k).isSome || protoProps.contains k

/-- `{ ...state.statsByPeriod, [state.currentPeriod]: period }`: replace the
entry for an existing key, keeping key order; keys are unique in every state
the module builds. -/
def updatePeriod (l : List (String × BloodSugarPeriodStats)) (k : String)
    (v : BloodSugarPeriodStats) : List (String × BloodSugarPeriodStats) :=
  l.map fun p => if p.1 = k then (k, v) else p

/-- `addMeasurement` from src/index.ts.  When `currentPeriod` is not a key,
line 125 yields `undefined` and line 129 throws a `TypeError`, modelled as
`none`. -/
def addMeasurement (state : BloodSugarAppState) (level : ℚ)
    (timeCategory : Option TimeCategory) : Option BloodSugarAppState :=
  match lookupPeriod state.statsByPeriod state.currentPeriod with
  | none => none
  | some period =>
    some { state with
      statsByPeriod := updatePeriod state.statsByPeriod state.currentPeriod
        (updatedPeriod state.range period level timeCategory) }

/-- `getCurrentPeriodStats` from src/index.ts; `undefined` is `none`. -/
def getCurrentPeriodStats (state : BloodSugarAppState) : Option BloodSugarPeriodStats :=
  lookupPeriod state.statsByPeriod state.currentPeriod

/-- `switchPeriod` from src/index.ts: `if (!state.statsByPeriod[period])`
throws "Invalid period" exactly when the JS property access is falsy, i.e.
when `period` is neither an own key nor an `Object.prototype` property name
(inherited values such as `statsByPeriod["toString"]` are truthy, so the
source does NOT throw for them and sets `currentPeriod` to such a label). -/
def switchPeriod (state : BloodSugarAppState) (period : String) :
    Except String BloodSugarAppState :=
  match isTruthyProperty state.statsByPeriod period with
  | false => Except.error "Invalid period"
  | true => Except.ok { state with currentPeriod := period }

/-- One external call of the module's API, for invariant claims. -/
inductive TrackerOp where
  | record (level : ℚ) (timeCategory : Option TimeCategory)
  | switch (label : String)

/-- Run one call; `none` is a crash or thrown error (an unsuccessful call). -/
def stepOp (s : BloodSugarAppState) : TrackerOp → Option BloodSugarAppState
  | .record level tc => addMeasurement s level tc
  | .switch label => (switchPeriod s label).toOption

/-- Run a sequence of calls, stopping at the first failure. -/
def runOps (s : BloodSugarAppState) : List TrackerOp → Option BloodSugarAppState
  | [] => some s
  | op :: ops => (stepOp s op).bind fun s' => runOps s' ops

/-- The window labels of a state, in mapping order. -/
def windowKeys (s : BloodSugarAppState) : List String :=
  s.statsByPeriod.map Prod.fst

/-! ### Concrete example states

`noDates` stands for the clock-dependent `calculateDateOffset`; the date
strings are informational only and never read by the three operations. -/

/-- A fixed stand-in for the clock-dependent date function. -/
def noDates : Nat → String := fun _ => ""

/-- The initial state with the stand-in dates. -/
def exampleState0 : BloodSugarAppState := initialState noDates

/-- `exampleState0` after `addMeasurement(_, 5.5, "beforeBreakfast")`. -/
def exampleState1 : BloodSugarAppState :=
  { exampleState0 with
    statsByPeriod := updatePeriod exampleState0.statsByPeriod "7"
      (updatedPeriod exampleState0.range (freshPeriod "" "") 5.5 (some .beforeBreakfast)) }

/-- `exampleState1` after `switchPeriod(_, "14")`. -/
def exampleState2 : BloodSugarAppState :=
  { exampleState1 with currentPeriod := "14" }

/-- `exampleState0` after `addMeasurement(_, 6)` (no time category). -/
def exampleStateLevel6 : BloodSugarAppState :=
  { exampleState0 with
    statsByPeriod := updatePeriod exampleState0.statsByPeriod "7"
      (updatedPeriod exampleState0.range (freshPeriod "" "") 6 none) }

/-- `exampleState0` after `switchPeriod(_, "toString")`, which succeeds in the
source because the inherited `Object.prototype.toString` is truthy. -/
def exampleStateToString : BloodSugarAppState :=
  { exampleState0 with currentPeriod := "toString" }


/-! ### Helper lemmas about the association-list operations -/

theorem lookupPeriod_cons (a1 : String) (a2 : BloodSugarPeriodStats)
    (t : List (String × BloodSugarPeriodStats)) (k : String) :
    lookupPeriod ((a1, a2) :: t) k = if a1 = k then some a2 else lookupPeriod t k := rfl

theorem updatePeriod_cons (a1 : String) (a2 : BloodSugarPeriodStats)
    (t : List (String × BloodSugarPeriodStats)) (k : String) (v : BloodSugarPeriodStats) :
    updatePeriod ((a1, a2) :: t) k v =
      (if a1 = k then (k, v) else (a1, a2)) :: updatePeriod t k v := rfl

theorem lookupPeriod_updatePeriod_self (l : List (String × BloodSugarPeriodStats)) (k : String)
    (v : BloodSugarPeriodStats) (h : (lookupPeriod l k).isSome) :
    lookupPeriod (updatePeriod l k v) k = some v := by
  induction l with
  | nil => simp [lookupPeriod] at h
  | cons a t ih =>
    obtain ⟨a1, a2⟩ := a
    rw [updatePeriod_cons]
    by_cases hk : a1 = k
    · rw [if_pos hk, lookupPeriod_cons, if_pos rfl]
    · rw [if_neg hk, lookupPeriod_cons, if_neg hk]
      rw [lookupPeriod_cons, if_neg hk] at h
      exact ih h

theorem lookupPeriod_updatePeriod_ne (l : List (String × BloodSugarPeriodStats)) (k k' : String)
    (v : BloodSugarPeriodStats) (h : k' ≠ k) :
    lookupPeriod (updatePeriod l k v) k' = lookupPeriod l k' := by
  induction l with
  | nil => rfl
  | cons a t ih =>
    obtain ⟨a1, a2⟩ := a
    rw [updatePeriod_cons, lookupPeriod_cons]
    by_cases hk : a1 = k
    · have hkk' : ¬ k = k' := fun hkk => h hkk.symm
      have ha1 : ¬ a1 = k' := hk ▸ hkk'
      rw [if_pos hk, lookupPeriod_cons, if_neg hkk', if_neg ha1]
      exact ih
    · rw [if_neg hk, lookupPeriod_cons]
      by_cases ha1 : a1 = k'
      · rw [if_pos ha1, if_pos ha1]
      · rw [if_neg ha1, if_neg ha1]
        exact ih

theorem keys_updatePeriod (l : List (String × BloodSugarPeriodStats)) (k : String)
    (v : BloodSugarPeriodStats) :
    (updatePeriod l k v).map Prod.fst = l.map Prod.fst := by
  induction l with
  | nil => rfl
  | cons a t ih =>
    obtain ⟨a1, a2⟩ := a
    rw [updatePeriod_cons, List.map_cons, List.map_cons, ih]
    by_cases hk : a1 = k
    · rw [if_pos hk, hk]
    · rw [if_neg hk]

theorem lookupPeriod_isSome_of_keys_eq (l l' : List (String × BloodSugarPeriodStats))
    (k : String) (hkeys : l'.map Prod.fst = l.map Prod.fst)
    (h : (lookupPeriod l k).isSome) : (lookupPeriod l' k).isSome := by
  induction l generalizing l' with
  | nil => simp [lookupPeriod] at h
  | cons a t ih =>
    cases l' with
    | nil => simp at hkeys
    | cons b t' =>
      obtain ⟨a1, a2⟩ := a
      obtain ⟨b1, b2⟩ := b
      simp only [List.map_cons, List.cons.injEq] at hkeys
      rw [lookupPeriod_cons]
      by_cases hk : a1 = k
      · rw [if_pos (hkeys.1.trans hk)]
        rfl
      · have hb : ¬ b1 = k := hkeys.1 ▸ hk
        rw [lookupPeriod_cons, if_neg hk] at h
        rw [if_neg hb]
        exact ih t' hkeys.2 h

/-- The JS truthiness test fails exactly when the label is neither an own
key nor an inherited `Object.prototype` property name. -/
theorem isTruthyProperty_false_iff (l : List (String × BloodSugarPeriodStats)) (k : String) :
    isTruthyProperty l k = false ↔
      lookupPeriod l k = none ∧ protoProps.contains k = false := by
  unfold isTruthyProperty
  cases h : lookupPeriod l k <;> simp [h]

/-- Unfolding `addMeasurement` when the current window exists. -/
theorem addMeasurement_eq (s : BloodSugarAppState) (level : ℚ) (tc : Option TimeCategory)
    (p : BloodSugarPeriodStats) (hp : lookupPeriod s.statsByPeriod s.currentPeriod = some p) :
    addMeasurement s level tc =
      some { s with
        statsByPeriod := updatePeriod s.statsByPeriod s.currentPeriod
          (updatedPeriod s.range p level tc) } := by
  simp [addMeasurement, hp]

/-- Reading a time category back directly after writing it. -/
theorem timeStats_get_set_self (ts : BloodSugarTimeStats) (c : TimeCategory) (v : ℚ) :
    (ts.set c v).get c = some v := by
  cases c <;> rfl

/-- Writing one time category leaves every other category unchanged. -/
theorem timeStats_get_set_ne (ts : BloodSugarTimeStats) (c c' : TimeCategory) (v : ℚ)
    (h : c' ≠ c) : (ts.set c v).get c' = ts.get c' := by
  cases c <;> cases c' <;>
    first
      | exact absurd rfl h
      | rfl

/-! ### Claim theorems -/

/-- Claim C1, counterexample: recording 5.5 ("beforeBreakfast") then 7.8
("afterLunch") into the fresh "7" window does NOT leave
`timeStats.afterLunch == 7.8`; the code stores 3.9 there. -/
theorem claimC1_counterexample :
    (((addMeasurement (initialState noDates) 5.5 (some .beforeBreakfast)).bind
      fun s => addMeasurement s 7.8 (some .afterLunch)).bind
      fun s => (lookupPeriod s.statsByPeriod "7").map fun p => p.timeStats.afterLunch)
    ≠ some (some (7.8 : ℚ)) := by
  norm_num [addMeasurement, updatedPeriod, classifyIncrement, countersTotal, initialState,
    freshPeriod, updatePeriod, lookupPeriod, noDates, BloodSugarTimeStats.sumValues,
    BloodSugarTimeStats.get, BloodSugarTimeStats.set]

/-- Claim C1 as amended: recording 5.5 ("beforeBreakfast") then 7.8
("afterLunch") into a fresh "7" window yields counters
`{normal:1, high:1, veryHigh:0, low:0}`, average 6.65, highest 7.8,
lowest 5.5, `timeStats.beforeBreakfast == 5.5` and
`timeStats.afterLunch == 3.9` (the shared-total-count formula divides 7.8
by the window total 2). -/
theorem claimC1_amended :
    (((addMeasurement (initialState noDates) 5.5 (some .beforeBreakfast)).bind
      fun s => addMeasurement s 7.8 (some .afterLunch)).bind
      fun s => lookupPeriod s.statsByPeriod "7")
    = some
      { startDate := ""
        endDate := ""
        average := some 6.65
        highest := some 7.8
        lowest := some 5.5
        counters := { veryHigh := 0, high := 1, normal := 1, low := 0 }
        timeStats := { beforeBreakfast := some 5.5, afterLunch := some 3.9 } } := by
  norm_num [addMeasurement, updatedPeriod, classifyIncrement, countersTotal, initialState,
    freshPeriod, updatePeriod, lookupPeriod, noDates, BloodSugarTimeStats.sumValues,
    BloodSugarTimeStats.get, BloodSugarTimeStats.set]

/-- Claim C2, counterexample: after recording 5.5 ("beforeBreakfast") into the
fresh "7" window, recording 7.8 ("beforeBreakfast") again does NOT set that
category's average to `(oldCategoryAvg * (n-1) + level) / n`
`= (5.5 * (2-1) + 7.8) / 2 = 6.65`; the code stores 16.275, because it
multiplies the old category average by (sum of all stored category
averages - 1), not by (n-1). -/
theorem claimC2_counterexample :
    (((addMeasurement (initialState noDates) 5.5 (some .beforeBreakfast)).bind
      fun s => addMeasurement s 7.8 (some .beforeBreakfast)).bind
      fun s => (lookupPeriod s.statsByPeriod "7").map fun p => p.timeStats.beforeBreakfast)
    ≠ some (some ((5.5 * (2 - 1) + 7.8) / 2 : ℚ)) := by
  norm_num [addMeasurement, updatedPeriod, classifyIncrement, countersTotal, initialState,
    freshPeriod, updatePeriod, lookupPeriod, noDates, BloodSugarTimeStats.sumValues,
    BloodSugarTimeStats.get, BloodSugarTimeStats.set]

/-- Claim C2 as amended: for every state and every `recordMeasurement` call
supplying a time category, the category's new running value equals
`(oldCategoryAvg * (S - 1) + level) / n`, where `oldCategoryAvg` is 0 when
the category had no prior entry, `S` is the sum of all stored category
averages before the call (absent categories contributing 0), and `n` is the
window's total measurement count (sum of the four band counters) after this
reading's counter increment. -/
theorem claimC2_amended (s : BloodSugarAppState) (level : ℚ) (c : TimeCategory)
    (p : BloodSugarPeriodStats) (hp : lookupPeriod s.statsByPeriod s.currentPeriod = some p)
    (s' : BloodSugarAppState) (h : addMeasurement s level (some c) = some s') :
    (lookupPeriod s'.statsByPeriod s.currentPeriod).map (fun p' => p'.timeStats.get c) =
      some (some (((p.timeStats.get c).getD 0 * (p.timeStats.sumValues - 1) + level) /
        (countersTotal (classifyIncrement s.range level p.counters) : ℚ))) := by
  rw [addMeasurement_eq s level (some c) p hp] at h
  injection h with h
  subst h
  have hs : (lookupPeriod s.statsByPeriod s.currentPeriod).isSome := by rw [hp]; rfl
  dsimp only
  rw [lookupPeriod_updatePeriod_self _ _ _ hs]
  simp [updatedPeriod, timeStats_get_set_self]

/-- `if level > h then level else h` is `max h level`. -/
theorem ite_gt_eq_max (a b : ℚ) : (if b > a then b else a) = max a b := by
  rcases le_or_lt b a with hba | hab
  · rw [if_neg (not_lt.mpr hba), max_eq_left hba]
  · rw [if_pos hab, max_eq_right hab.le]

/-- `if level < l then level else l` is `min l level`. -/
theorem ite_lt_eq_min (a b : ℚ) : (if b < a then b else a) = min a b := by
  rcases le_or_lt a b with hab | hba
  · rw [if_neg (not_lt.mpr hab), min_eq_left hab]
  · rw [if_pos hba, min_eq_right hba.le]

/-- Claim C3: `recordMeasurement` classifies by testing the bands in source
order and increments exactly the first matching band's counter; with the
default thresholds a level of exactly 6 increments the high counter. -/
theorem claimC3_classification (s : BloodSugarAppState) (level : ℚ) (tc : Option TimeCategory)
    (p : BloodSugarPeriodStats) (hp : lookupPeriod s.statsByPeriod s.currentPeriod = some p)
    (s' : BloodSugarAppState) (h : addMeasurement s level tc = some s') :
    (lookupPeriod s'.statsByPeriod s.currentPeriod).map (fun p' => p'.counters) =
      some
        (if level > s.range.veryHigh then
           { p.counters with veryHigh := p.counters.veryHigh + 1 }
         else if s.range.high.1 ≤ level ∧ level ≤ s.range.high.2 then
           { p.counters with high := p.counters.high + 1 }
         else if s.range.normal.1 ≤ level ∧ level ≤ s.range.normal.2 then
           { p.counters with normal := p.counters.normal + 1 }
         else if level < s.range.low then
           { p.counters with low := p.counters.low + 1 }
         else p.counters) ∧
    (s.range = { veryHigh := 9, high := (6, 9), normal := (4, 6), low := 4 } → level = 6 →
      (lookupPeriod s'.statsByPeriod s.currentPeriod).map (fun p' => p'.counters) =
        some { p.counters with high := p.counters.high + 1 }) := by
  rw [addMeasurement_eq s level tc p hp] at h
  injection h with h
  subst h
  have hs : (lookupPeriod s.statsByPeriod s.currentPeriod).isSome := by rw [hp]; rfl
  dsimp only
  rw [lookupPeriod_updatePeriod_self _ _ _ hs]
  constructor
  · simp [updatedPeriod, classifyIncrement]
  · intro hr hl
    subst hl
    rw [hr]
    norm_num [updatedPeriod, classifyIncrement]

/-- Witness for C3: at the initial state, recording exactly 6 increments the
high counter (and only it). -/
theorem claimC3_witness :
    (lookupPeriod exampleStateLevel6.statsByPeriod exampleState0.currentPeriod).map
        (fun p' => p'.counters) =
      some { veryHigh := 0, high := 1, normal := 0, low := 0 } :=
  ((claimC3_classification exampleState0 6 none (freshPeriod "" "") rfl
      exampleStateLevel6 rfl).2 rfl rfl).trans rfl

/-- Claim C4, counterexample: "toString" is not a key of the initial state's
statistics mapping, yet `switchPeriod` does not raise the invalid-window
error for it — the inherited `Object.prototype.toString` is truthy, so the
call succeeds and sets `currentPeriod` to "toString". -/
theorem claimC4_counterexample :
    lookupPeriod exampleState0.statsByPeriod "toString" = none ∧
    switchPeriod exampleState0 "toString" = Except.ok exampleStateToString :=
  ⟨rfl, rfl⟩

/-- Claim C4 as amended: `switchPeriod` raises the invalid-window error
exactly when the label is neither a key of the statistics mapping nor an
`Object.prototype` property name (JS property access consults the prototype
chain, and the inherited values are truthy); on a valid key it returns the
same state with only `currentPeriod` replaced (the mapping, and in the pure
embedding the whole input state, untouched). -/
theorem claimC4_switch (s : BloodSugarAppState) (L : String) :
    (switchPeriod s L = Except.error "Invalid period" ↔
      (lookupPeriod s.statsByPeriod L = none ∧ protoProps.contains L = false)) ∧
    (∀ w, lookupPeriod s.statsByPeriod L = some w →
      switchPeriod s L = Except.ok
        { range := s.range, statsByPeriod := s.statsByPeriod, currentPeriod := L }) := by
  constructor
  · rw [← isTruthyProperty_false_iff]
    cases ht : isTruthyProperty s.statsByPeriod L <;> simp [switchPeriod, ht]
  · intro w hl
    have ht : isTruthyProperty s.statsByPeriod L = true := by
      simp [isTruthyProperty, hl]
    simp [switchPeriod, ht]

/-- Witness for the amended C4: switching `exampleState0` to "nonexistent"
(neither a key nor inherited) raises the error; switching it to "14"
succeeds and only changes `currentPeriod`. -/
theorem claimC4_witness :
    switchPeriod exampleState0 "nonexistent" = Except.error "Invalid period" ∧
    switchPeriod exampleState0 "14" = Except.ok
      { range := exampleState0.range, statsByPeriod := exampleState0.statsByPeriod,
        currentPeriod := "14" } :=
  ⟨(claimC4_switch exampleState0 "nonexistent").1.mpr ⟨rfl, rfl⟩,
   (claimC4_switch exampleState0 "14").2 (freshPeriod "" "") rfl⟩

/-- Claim C5: `recordMeasurement` changes at most the current window's entry:
the thresholds, the current window label, and every other window's stats are
unchanged. -/
theorem claimC5_frame (s : BloodSugarAppState) (level : ℚ) (tc : Option TimeCategory)
    (s' : BloodSugarAppState) (h : addMeasurement s level tc = some s') :
    s'.range = s.range ∧ s'.currentPeriod = s.currentPeriod ∧
    ∀ k, k ≠ s.currentPeriod →
      lookupPeriod s'.statsByPeriod k = lookupPeriod s.statsByPeriod k := by
  cases hp : lookupPeriod s.statsByPeriod s.currentPeriod with
  | none => simp [addMeasurement, hp] at h
  | some p =>
    rw [addMeasurement_eq s level tc p hp] at h
    injection h with h
    subst h
    exact ⟨rfl, rfl, fun k hk => lookupPeriod_updatePeriod_ne _ _ _ _ hk⟩

/-- Witness for C5: the first example recording leaves the "14" window intact. -/
theorem claimC5_witness :
    lookupPeriod exampleState1.statsByPeriod "14" =
      lookupPeriod exampleState0.statsByPeriod "14" :=
  (claimC5_frame exampleState0 5.5 (some .beforeBreakfast) exampleState1 rfl).2.2 "14"
    (by decide)

/-- Claim C6: the first reading of a window initializes both bounds to the
level; afterwards the new highest is the max of the old highest and the
level, and the new lowest is the min of the old lowest and the level. -/
theorem claimC6_minmax (s : BloodSugarAppState) (level : ℚ) (tc : Option TimeCategory)
    (p : BloodSugarPeriodStats) (hp : lookupPeriod s.statsByPeriod s.currentPeriod = some p)
    (s' : BloodSugarAppState) (h : addMeasurement s level tc = some s') :
    (lookupPeriod s'.statsByPeriod s.currentPeriod).map (fun p' => (p'.highest, p'.lowest)) =
      some (some (match p.highest with | none => level | some h0 => max h0 level),
            some (match p.lowest with | none => level | some l0 => min l0 level)) := by
  rw [addMeasurement_eq s level tc p hp] at h
  injection h with h
  subst h
  have hs : (lookupPeriod s.statsByPeriod s.currentPeriod).isSome := by rw [hp]; rfl
  dsimp only
  rw [lookupPeriod_updatePeriod_self _ _ _ hs]
  cases hh : p.highest <;> cases hl : p.lowest <;>
    simp [updatedPeriod, hh, hl, ite_gt_eq_max, ite_lt_eq_min]

/-- Witness for C6: the first recording into the fresh "7" window sets both
bounds to 5.5. -/
theorem claimC6_witness :
    (lookupPeriod exampleState1.statsByPeriod exampleState0.currentPeriod).map
        (fun p' => (p'.highest, p'.lowest)) =
      some (some 5.5, some 5.5) :=
  (claimC6_minmax exampleState0 5.5 (some .beforeBreakfast) (freshPeriod "" "") rfl
    exampleState1 rfl).trans rfl

/-- Witness for C2 as amended: the first recording (5.5, "beforeBreakfast")
into the fresh window stores `(0 * (0 - 1) + 5.5) / 1`. -/
theorem claimC2_amended_witness :
    (lookupPeriod exampleState1.statsByPeriod exampleState0.currentPeriod).map
        (fun p' => p'.timeStats.get .beforeBreakfast) =
      some (some ((((freshPeriod "" "").timeStats.get .beforeBreakfast).getD 0 *
          ((freshPeriod "" "").timeStats.sumValues - 1) + 5.5) /
        (countersTotal (classifyIncrement exampleState0.range 5.5
          (freshPeriod "" "").counters) : ℚ))) :=
  claimC2_amended exampleState0 5.5 .beforeBreakfast (freshPeriod "" "") rfl
    exampleState1 rfl

/-- A state whose thresholds leave a gap between `normal` \x5b4,5\x5d and
`high` \x5b6,9\x5d, for the C7 witness. -/
def gappedState : BloodSugarAppState :=
  { exampleState0 with range := { veryHigh := 9, high := (6, 9), normal := (4, 5), low := 4 } }

/-- `gappedState` after recording 5.5, a value in the threshold gap. -/
def gappedState1 : BloodSugarAppState :=
  { gappedState with
    statsByPeriod := updatePeriod gappedState.statsByPeriod "7"
      (updatedPeriod gappedState.range (freshPeriod "" "") 5.5 none) }

/-- Claim C7: a level matching none of the four band tests increments no
counter, yet the window's highest, lowest and average fields are still
updated (the average field in particular is set to a value). -/
theorem claimC7_gap (s : BloodSugarAppState) (level : ℚ) (tc : Option TimeCategory)
    (p : BloodSugarPeriodStats) (hp : lookupPeriod s.statsByPeriod s.currentPeriod = some p)
    (s' : BloodSugarAppState) (h : addMeasurement s level tc = some s')
    (h1 : ¬ level > s.range.veryHigh)
    (h2 : ¬ (s.range.high.1 ≤ level ∧ level ≤ s.range.high.2))
    (h3 : ¬ (s.range.normal.1 ≤ level ∧ level ≤ s.range.normal.2))
    (h4 : ¬ level < s.range.low) :
    (lookupPeriod s'.statsByPeriod s.currentPeriod).map
        (fun p' => (p'.counters, p'.highest, p'.lowest, p'.average.isSome)) =
      some (p.counters,
            some (match p.highest with | none => level | some h0 => max h0 level),
            some (match p.lowest with | none => level | some l0 => min l0 level),
            true) := by
  rw [addMeasurement_eq s level tc p hp] at h
  injection h with h
  subst h
  have hs : (lookupPeriod s.statsByPeriod s.currentPeriod).isSome := by rw [hp]; rfl
  dsimp only
  rw [lookupPeriod_updatePeriod_self _ _ _ hs]
  cases hh : p.highest <;> cases hl : p.lowest <;>
    simp [updatedPeriod, classifyIncrement, hh, hl, h1, h2, h3, h4,
      ite_gt_eq_max, ite_lt_eq_min]

/-- Witness for C7: with a gap between normal \x5b4,5\x5d and high \x5b6,9\x5d,
recording 5.5 leaves all counters at zero but sets highest, lowest and
average. -/
theorem claimC7_witness :
    (lookupPeriod gappedState1.statsByPeriod gappedState.currentPeriod).map
        (fun p' => (p'.counters, p'.highest, p'.lowest, p'.average.isSome)) =
      some ({ veryHigh := 0, high := 0, normal := 0, low := 0 },
            some 5.5, some 5.5, true) :=
  (claimC7_gap gappedState 5.5 none (freshPeriod "" "") rfl gappedState1 rfl
    (by norm_num [gappedState]) (by norm_num [gappedState])
    (by norm_num [gappedState]) (by norm_num [gappedState])).trans rfl

/-- Claim C8: switching to any valid label succeeds, and reading the current
stats afterwards returns exactly that label's stats from the original state. -/
theorem claimC8_roundtrip (s : BloodSugarAppState) (L : String) (w : BloodSugarPeriodStats)
    (h : lookupPeriod s.statsByPeriod L = some w) :
    (switchPeriod s L).map getCurrentPeriodStats = Except.ok (some w) := by
  have ht : isTruthyProperty s.statsByPeriod L = true := by
    simp [isTruthyProperty, h]
  simp [switchPeriod, ht, getCurrentPeriodStats, Except.map, h]

/-- Witness for C8: switching `exampleState0` to "30" and reading back gives
the fresh "30" window. -/
theorem claimC8_witness :
    (switchPeriod exampleState0 "30").map getCurrentPeriodStats =
      Except.ok (some (freshPeriod "" "")) :=
  claimC8_roundtrip exampleState0 "30" (freshPeriod "" "") rfl

/-- The provable C9 invariant: the window labels are exactly
"7","14","30","90", and the current label is either one of them or an
`Object.prototype` property name (a successful `switchPeriod` can install the
latter). -/
def trackerInv (s : BloodSugarAppState) : Prop :=
  windowKeys s = ["7", "14", "30", "90"] ∧
    ((lookupPeriod s.statsByPeriod s.currentPeriod).isSome = true ∨
      protoProps.contains s.currentPeriod = true)

/-- One successful call preserves the C9 invariant. -/
theorem stepOp_preserves_inv (s : BloodSugarAppState) (op : TrackerOp)
    (s' : BloodSugarAppState) (hinv : trackerInv s) (h : stepOp s op = some s') :
    trackerInv s' := by
  obtain ⟨hkeys, hcur⟩ := hinv
  cases op with
  | record level tc =>
    simp only [stepOp] at h
    cases hp : lookupPeriod s.statsByPeriod s.currentPeriod with
    | none => simp [addMeasurement, hp] at h
    | some p =>
      rw [addMeasurement_eq s level tc p hp] at h
      injection h with h
      subst h
      constructor
      · unfold windowKeys at hkeys ⊢
        dsimp only
        rw [keys_updatePeriod]
        exact hkeys
      · left
        dsimp only
        rw [lookupPeriod_updatePeriod_self _ _ _ (by rw [hp]; rfl)]
        rfl
  | switch L =>
    simp only [stepOp] at h
    cases ht : isTruthyProperty s.statsByPeriod L with
    | false => simp [switchPeriod, ht, Except.toOption] at h
    | true =>
      simp only [switchPeriod, ht, Except.toOption, Option.some.injEq] at h
      subst h
      refine ⟨hkeys, ?_⟩
      have := ht
      rw [isTruthyProperty, Bool.or_eq_true] at this
      exact this

/-- Every successful run of calls preserves the C9 invariant. -/
theorem runOps_preserves_inv (ops : List TrackerOp) :
    ∀ s s', trackerInv s → runOps s ops = some s' → trackerInv s' := by
  induction ops with
  | nil =>
    intro s s' hinv h
    simp only [runOps] at h
    injection h with h
    subst h
    exact hinv
  | cons op ops ih =>
    intro s s' hinv h
    simp only [runOps] at h
    cases hstep : stepOp s op with
    | none => rw [hstep] at h; cases h
    | some s1 =>
      rw [hstep] at h
      exact ih s1 s' (stepOp_preserves_inv s op s1 hinv hstep) h

/-- Claim C9, counterexample: `switchPeriod(_, "toString")` is a successful
call (the inherited property is truthy, no error is raised), after which
`currentPeriod` is "toString", which is not a key of the statistics mapping. -/
theorem claimC9_counterexample :
    runOps exampleState0 [TrackerOp.switch "toString"] = some exampleStateToString ∧
    lookupPeriod exampleStateToString.statsByPeriod exampleStateToString.currentPeriod
      = none :=
  ⟨rfl, rfl⟩

/-- Claim C9 as amended: starting from the initial state, after any finite
sequence of successful `recordMeasurement` / `switchWindow` calls the key set
of the statistics mapping is still exactly "7","14","30","90", and the
current label is either a key of the mapping or an `Object.prototype`
property name (which a successful switch can install, "toString" for
example). -/
theorem claimC9_invariant (dateOffset : Nat → String) (ops : List TrackerOp)
    (s' : BloodSugarAppState) (h : runOps (initialState dateOffset) ops = some s') :
    windowKeys s' = ["7", "14", "30", "90"] ∧
      ((lookupPeriod s'.statsByPeriod s'.currentPeriod).isSome = true ∨
        protoProps.contains s'.currentPeriod = true) :=
  runOps_preserves_inv ops (initialState dateOffset) s' ⟨rfl, Or.inl rfl⟩ h

/-- Witness for the amended C9: a record then a switch to "14" keeps the
invariant, with the current label a genuine key. -/
theorem claimC9_witness :
    windowKeys exampleState2 = ["7", "14", "30", "90"] ∧
      ((lookupPeriod exampleState2.statsByPeriod exampleState2.currentPeriod).isSome = true ∨
        protoProps.contains exampleState2.currentPeriod = true) :=
  claimC9_invariant noDates
    [TrackerOp.record 5.5 (some .beforeBreakfast), TrackerOp.switch "14"]
    exampleState2 rfl

/-- Claim C10: `recordMeasurement` changes at most the supplied time
category's entry in the current window's time stats; with no category the
whole time-stats record is unchanged. -/
theorem claimC10_timeStats_frame (s : BloodSugarAppState) (level : ℚ)
    (tc : Option TimeCategory) (p : BloodSugarPeriodStats)
    (hp : lookupPeriod s.statsByPeriod s.currentPeriod = some p)
    (s' : BloodSugarAppState) (h : addMeasurement s level tc = some s') :
    ((tc = none) →
      (lookupPeriod s'.statsByPeriod s.currentPeriod).map (fun p' => p'.timeStats) =
        some p.timeStats) ∧
    (∀ c', tc ≠ some c' →
      (lookupPeriod s'.statsByPeriod s.currentPeriod).map
          (fun p' => p'.timeStats.get c') =
        some (p.timeStats.get c')) := by
  rw [addMeasurement_eq s level tc p hp] at h
  injection h with h
  subst h
  have hs : (lookupPeriod s.statsByPeriod s.currentPeriod).isSome := by rw [hp]; rfl
  dsimp only
  rw [lookupPeriod_updatePeriod_self _ _ _ hs]
  constructor
  · intro htc
    subst htc
    simp [updatedPeriod]
  · intro c' hc'
    cases tc with
    | none => simp [updatedPeriod]
    | some c =>
      have hcc : c' ≠ c := fun he => hc' (by rw [he])
      simp [updatedPeriod, timeStats_get_set_ne _ _ _ _ hcc]

/-- Witness for C10: recording (5.5, "beforeBreakfast") leaves the
"afterLunch" entry unchanged. -/
theorem claimC10_witness :
    (lookupPeriod exampleState1.statsByPeriod exampleState0.currentPeriod).map
        (fun p' => p'.timeStats.get .afterLunch) =
      some ((freshPeriod "" "").timeStats.get .afterLunch) :=
  (claimC10_timeStats_frame exampleState0 5.5 (some .beforeBreakfast) (freshPeriod "" "")
    rfl exampleState1 rfl).2 .afterLunch (by simp)
